import Mathlib

/-!
Shallow embedding of `src/irv.py` (a Flask + SQLAlchemy ranked-choice voting
CRUD application) together with the IRV resolver modelled from the
specification, and theorems settling the spec claims against it.

The database is modelled as explicit lists of rows; SQLAlchemy `session.commit`
is modelled as making the pending row changes durable, with SQLite enforcing the
declared `UniqueConstraint`s of the `votes` table at insert time (SQLite does
not enforce foreign keys by default, and the code never enables them, so no
foreign-key check is modelled).  `uuid4` is modelled as an external supply of
fresh strings, `mail.send` as an external collaborator that either delivers or
raises.
-/

namespace Irv

/-- Row of the `elections` table (`class Election`): id, name, key. -/
structure Election where
  id : Nat
  name : String
  key : String
deriving DecidableEq, Repr

/-- Row of the `positions` table (`class Position`): id, name, rank,
election_id. -/
structure Position where
  id : Nat
  name : String
  rank : Nat
  election_id : Nat
deriving DecidableEq, Repr

/-- Row of the `candidates` table (`class Candidate`): id, name, position_id. -/
structure Candidate where
  id : Nat
  name : String
  position_id : Nat
deriving DecidableEq, Repr

/-- Row of the `votes` table (`class Vote`): id, rank, candidate_id, voter_id.
The table also declares `UniqueConstraint('voter_id', 'candidate_id')` and
`UniqueConstraint('rank', 'candidate_id')`; these are enforced at commit by
`insertVotesOk` below. -/
structure Vote where
  id : Nat
  rank : Nat
  candidate_id : Nat
  voter_id : Nat
deriving DecidableEq, Repr

/-- Row of the `voters` table (`class Voter`): id, key, election_id. -/
structure Voter where
  id : Nat
  key : String
  election_id : Nat
deriving DecidableEq, Repr

/-- The committed database state: one list of rows per table, plus a counter
supplying fresh primary keys (SQLAlchemy assigns autoincrement ids at flush). -/
structure DB where
  elections : List Election
  positions : List Position
  candidates : List Candidate
  votes : List Vote
  voters : List Voter
  nextId : Nat
deriving DecidableEq, Repr

/-- Exceptions that can escape a request handler.  `invalidUsage` is the
`InvalidUsage` class of the code (defined, with a registered error handler,
but never raised anywhere); the others are raised by SQLAlchemy
(`Query.one`, commit-time constraint violation) or by `mail.send`. -/
inductive AppException where
  | invalidUsage (message : String) (status : Nat)
  | noResultFound
  | multipleResultsFound
  | integrityError
  | mailSendFailure
deriving DecidableEq, Repr

/-- HTTP status of the response produced when a handler raises.  Flask only
has an `@app.errorhandler(InvalidUsage)` registration; every other exception
is unhandled and becomes a 500 Internal Server Error. -/
def responseStatus : AppException → Nat
  | .invalidUsage _ status => status
  | _ => 500

/-- `Query.one()`: exactly one row or raise `NoResultFound` /
`MultipleResultsFound`. -/
def queryOne {α : Type} (rows : List α) : Except AppException α :=
  match rows with
  | [] => .error .noResultFound
  | [x] => .ok x
  | _ => .error .multipleResultsFound

/-- `url_for("manage_election", election_id=eid, _external=True)`. -/
def manageUrlFor (electionId : Nat) : String :=
  "http://localhost/election/" ++ toString electionId ++ "/manage"

/-- `url_for("vote_election", election_id=eid, _external=True)`. -/
def voteUrlFor (electionId : Nat) : String :=
  "http://localhost/election/" ++ toString electionId ++ "/vote"

/-- `url_for("results_election", election_id=eid, _external=True)`. -/
def resultsUrlFor (electionId : Nat) : String :=
  "http://localhost/election/" ++ toString electionId ++ "/results"

/-! ### The POST branch of `vote_election` -/

/-- One element of `request.json['votes']`. -/
structure BallotJson where
  position_id : Nat
  candidate_ids : List Nat
deriving DecidableEq, Repr

/-- The JSON body of a POST to `/election/<election_id>/vote`. -/
structure VoteRequestJson where
  key : String
  votes : List BallotJson
deriving DecidableEq, Repr

/-- The join of the `old_votes` query: a vote row joins `Vote.candidate` and
`Candidate.position` and the position's `election_id` matches. -/
def voteInElection (db : DB) (electionId : Nat) (v : Vote) : Bool :=
  db.candidates.any fun c =>
    c.id == v.candidate_id &&
      db.positions.any fun p => p.id == c.position_id && p.election_id == electionId

/-- Lines 192-200: query `old_votes` (all votes of this voter joined through
their candidate's position into this election), delete each, and commit. -/
def deleteOldVotes (db : DB) (voterId electionId : Nat) : DB :=
  { db with
    votes := db.votes.filter fun v =>
      !(v.voter_id == voterId && voteInElection db electionId v) }

/-- Lines 206-209: the inner loop creating `Vote(rank=rank, candidate_id=cid,
voter=voter)` with `rank` starting at 1 and incrementing; ids are assigned
sequentially at flush. -/
def buildVotes (voterId : Nat) : Nat → Nat → List Nat → List Vote
  | _, _, [] => []
  | nid, rank, cid :: rest =>
    { id := nid, rank := rank, candidate_id := cid, voter_id := voterId } ::
      buildVotes voterId (nid + 1) (rank + 1) rest

/-- Lines 202-209: the outer loop over `request.json['votes']`: look up each
ballot's position with `.one()` (filtered by `Position.id` only — not by
election), then build the ballot's vote rows.  The rows are pending until the
final commit. -/
def insertBallots (db : DB) (voterId : Nat) :
    List BallotJson → List Vote → Nat → Except AppException (List Vote × Nat)
  | [], acc, nid => .ok (acc, nid)
  | b :: rest, acc, nid =>
    match queryOne (db.positions.filter fun p => p.id == b.position_id) with
    | .error e => .error e
    | .ok _ =>
      insertBallots db voterId rest
        (acc ++ buildVotes voterId nid 1 b.candidate_ids)
        (nid + b.candidate_ids.length)

/-- Two vote rows collide on one of the two declared unique constraints:
`UniqueConstraint('voter_id', 'candidate_id')` or
`UniqueConstraint('rank', 'candidate_id')`. -/
def voteConflict (a b : Vote) : Bool :=
  (a.voter_id == b.voter_id && a.candidate_id == b.candidate_id) ||
    (a.rank == b.rank && a.candidate_id == b.candidate_id)

/-- No two rows of the list collide on a declared unique constraint. -/
def votesUniqueOk : List Vote → Bool
  | [] => true
  | v :: rest => (rest.all fun w => !voteConflict v w) && votesUniqueOk rest

/-- SQLite accepts an INSERT batch iff no inserted row collides with an
existing row or with another inserted row on a declared unique constraint. -/
def insertVotesOk (oldRows newRows : List Vote) : Bool :=
  votesUniqueOk newRows &&
    newRows.all fun r => oldRows.all fun w => !voteConflict r w

/-- The database state a request leaves behind together with the request's
result (a redirect JSON on success, the escaped exception on failure). -/
structure RequestOutcome where
  db : DB
  result : Except AppException String
deriving Repr

/-- The POST branch of `vote_election` (lines 187-216).
1. `.one()` lookup of the voter by key and election.
2. Delete all the voter's votes in this election and **commit** (line 200).
3. For each submitted ballot: `.one()` position lookup and creation of
   pending vote rows, ranks 1..N — no validation of the candidate ids.
4. Final commit: persists the pending rows unless a declared unique
   constraint is violated, in which case the commit raises and only the
   already-committed deletion survives. -/
def vote_election (db : DB) (electionId : Nat) (req : VoteRequestJson) :
    RequestOutcome :=
  match queryOne (db.voters.filter fun v =>
      v.key == req.key && v.election_id == electionId) with
  | .error e => { db := db, result := .error e }
  | .ok voter =>
    let db1 := deleteOldVotes db voter.id electionId
    match insertBallots db1 voter.id req.votes [] db1.nextId with
    | .error e => { db := db1, result := .error e }
    | .ok (rows, nid) =>
      if insertVotesOk db1.votes rows then
        { db := { db1 with votes := db1.votes ++ rows, nextId := nid },
          result := .ok (resultsUrlFor electionId) }
      else
        { db := db1, result := .error .integrityError }

/-- The currently stored ballot rows of one (voter, position) pair: the
voter's vote rows whose candidate belongs to the position. -/
def votesForPair (db : DB) (voterId positionId : Nat) : List Vote :=
  db.votes.filter fun v =>
    v.voter_id == voterId &&
      db.candidates.any fun c => c.id == v.candidate_id && c.position_id == positionId

/-! ### The POST branch of `create_election` -/

/-- One element of `request.json['positions']`. -/
structure PositionJson where
  name : String
  candidates : List String
deriving DecidableEq, Repr

/-- The JSON body of a POST to `/election`. -/
structure CreateRequestJson where
  name : String
  admin_email : String
  voter_emails : List String
  positions : List PositionJson
deriving DecidableEq, Repr

/-- Lines 148-150: the candidate rows of one position, ids assigned
sequentially at flush. -/
def buildCandidates (positionId : Nat) : Nat → List String → List Candidate
  | _, [] => []
  | nid, cname :: rest =>
    { id := nid, name := cname, position_id := positionId } ::
      buildCandidates positionId (nid + 1) rest

/-- Lines 143-150: the position rows (rank 0, 1, ...) and their candidate
rows; returns the rows together with the next fresh id. -/
def buildPositions (electionId : Nat) :
    Nat → Nat → List PositionJson → List Position × List Candidate × Nat
  | nid, _, [] => ([], [], nid)
  | nid, prank, pj :: rest =>
    let p : Position :=
      { id := nid, name := pj.name, rank := prank, election_id := electionId }
    let cs := buildCandidates nid (nid + 1) pj.candidates
    let (ps, csRest, nid2) :=
      buildPositions electionId (nid + 1 + pj.candidates.length) (prank + 1) rest
    (p :: ps, cs ++ csRest, nid2)

/-- Lines 158-166: the loop over `voter_emails`: create a `Voter` with a fresh
`uuid4` key, and `mail.send` the voting URL (send index `k`; the admin mail was
send index 0, and `uuid` index `k` matches since `uuid 0` was the election
key).  If a send raises, the loop aborts: the mails already sent stay sent,
but none of the pending voter rows reach the final commit.  Returns
(committed voters, sent mails, next fresh id, loop completed). -/
def voterLoop (electionId : Nat) (uuid : Nat → String) (sendOk : Nat → Bool) :
    List String → Nat → Nat → List Voter × List (String × String) × Nat × Bool
  | [], nid, _ => ([], [], nid, true)
  | email :: rest, nid, k =>
    let key := uuid k
    let url := voteUrlFor electionId ++ "#" ++ key
    if sendOk k then
      let (vs, ms, nid2, ok) := voterLoop electionId uuid sendOk rest (nid + 1) (k + 1)
      ({ id := nid, key := key, election_id := electionId } :: vs,
        (email, url) :: ms, nid2, ok)
    else
      ([], [], nid, false)

/-- The state a `create_election` request leaves behind: the committed
database, the mails handed to `mail.send` (recipient, body), and the result. -/
structure CreateOutcome where
  db : DB
  sent : List (String × String)
  result : Except AppException String
deriving Repr

/-- The POST branch of `create_election` (lines 140-171).
1. Build the election (key := `str(uuid4())`, the raw token), its positions
   and candidates, and **commit** (line 152).
2. `mail.send` the manage URL (carrying the raw key after `#`) to the admin;
   an exception here escapes the handler (nothing later runs).
3. For each voter email: create a `Voter` with a raw `uuid4` key and
   `mail.send` its voting URL; an exception aborts the loop before the final
   commit, so no voter row is persisted.
4. Final commit persists the voters; respond with the manage URL. -/
def create_election (db : DB) (uuid : Nat → String) (sendOk : Nat → Bool)
    (req : CreateRequestJson) : CreateOutcome :=
  let electionId := db.nextId
  let e : Election := { id := electionId, name := req.name, key := uuid 0 }
  let (ps, cs, nid1) := buildPositions electionId (electionId + 1) 0 req.positions
  let db1 : DB :=
    { db with
      elections := db.elections ++ [e]
      positions := db.positions ++ ps
      candidates := db.candidates ++ cs
      nextId := nid1 }
  let manage_url := manageUrlFor electionId ++ "#" ++ e.key
  if sendOk 0 then
    let (vs, ms, nid2, ok) := voterLoop electionId uuid sendOk req.voter_emails nid1 1
    if ok then
      { db := { db1 with voters := db1.voters ++ vs, nextId := nid2 }
        sent := (req.admin_email, manage_url) :: ms
        result := .ok manage_url }
    else
      { db := db1
        sent := (req.admin_email, manage_url) :: ms
        result := .error .mailSendFailure }
  else
    { db := db1, sent := [], result := .error .mailSendFailure }

/-! ### The IRV resolver, modelled from the specification

No instant-runoff resolver exists anywhere in `src/irv.py`; the following
definitions embed the algorithm of spec section 4.3 so that its examples can
be checked. -/

/-- Modelled from the spec: a ballot's highest-ranked candidate still in
`active` (no resolver exists in `src/irv.py`). -/
def firstActive (active : List Nat) : List Nat → Option Nat
  | [] => none
  | c :: rest => if active.contains c then some c else firstActive active rest

/-- Modelled from the spec: the number of ballots whose first active choice is
candidate `c`. -/
def countFirst (active : List Nat) (ballots : List (List Nat)) (c : Nat) : Nat :=
  (ballots.filter fun b => firstActive active b == some c).length

/-- Modelled from the spec: the number of ballots with no remaining active
choice this round ("exhausted"). -/
def exhaustedCount (active : List Nat) (ballots : List (List Nat)) : Nat :=
  (ballots.filter fun b => firstActive active b == none).length

/-- Modelled from the spec: one round of the audit trail — the full
candidate-to-count mapping, the exhausted-ballot count, and the candidates
eliminated this round. -/
structure RoundRecord where
  counts : List (Nat × Nat)
  exhausted : Nat
  eliminated : List Nat
deriving DecidableEq, Repr

/-- Modelled from the spec: the final outcome — a winner, or `NoWinner`
reported as an unresolved tie (a value, not an exception). -/
inductive TallyOutcome where
  | winner (c : Nat)
  | noWinner
deriving DecidableEq, Repr

/-- Modelled from the spec: the tally report — ordered rounds plus the
outcome. -/
structure TallyReport where
  rounds : List RoundRecord
  outcome : TallyOutcome
deriving DecidableEq, Repr

/-- Minimum of the counts in a round's candidate-count list. -/
def minCount : List (Nat × Nat) → Nat
  | [] => 0
  | [(_, n)] => n
  | (_, n) :: rest => min n (minCount rest)

/-- Insert a candidate id into a sorted id list. -/
def insertSorted (c : Nat) : List Nat → List Nat
  | [] => [c]
  | x :: rest => if c ≤ x then c :: x :: rest else x :: insertSorted c rest

/-- Sort candidate ids ascending (the spec requires counts and ties to be
handled over sorted candidate ids, independent of iteration order). -/
def sortIds : List Nat → List Nat
  | [] => []
  | c :: rest => insertSorted c (sortIds rest)

/-- Modelled from the spec: the elimination-round loop of section 4.3.
Each round tallies first-active-choice counts over the sorted active ids,
checks for a strict majority of the non-exhausted ballots, otherwise
eliminates every candidate tied at the minimum count; a sole survivor wins by
default, an emptied field is `NoWinner`. -/
def resolveLoop (ballots : List (List Nat)) :
    Nat → List Nat → List RoundRecord → TallyReport
  | 0, _, acc => { rounds := acc.reverse, outcome := .noWinner }
  | fuel + 1, active, acc =>
    let counts := active.map fun c => (c, countFirst active ballots c)
    let ex := exhaustedCount active ballots
    let nonExhausted := ballots.length - ex
    match counts.find? fun p => nonExhausted < 2 * p.2 with
    | some p =>
      { rounds := ({ counts := counts, exhausted := ex, eliminated := [] } :: acc).reverse
        outcome := .winner p.1 }
    | none =>
      let m := minCount counts
      let elim := (counts.filter fun p => p.2 == m).map Prod.fst
      let rd : RoundRecord := { counts := counts, exhausted := ex, eliminated := elim }
      match active.filter fun c => !elim.contains c with
      | [] => { rounds := (rd :: acc).reverse, outcome := .noWinner }
      | [c] => { rounds := (rd :: acc).reverse, outcome := .winner c }
      | c1 :: c2 :: rest => resolveLoop ballots fuel (c1 :: c2 :: rest) (rd :: acc)

/-- Modelled from the spec: `resolve(candidates, ballots)` for a single seat —
no resolver exists in `src/irv.py`; this follows spec section 4.3 step by
step.  The elimination loop runs at most `|candidates|` rounds. -/
def resolve (candidates : List Nat) (ballots : List (List Nat)) : TallyReport :=
  let sorted := sortIds candidates
  match sorted with
  | [] => { rounds := [], outcome := .noWinner }
  | _ => resolveLoop ballots sorted.length sorted []

/-! ### Sample committed databases for concrete runs -/

/-- A committed database: election 1 with positions 2 and 3, candidate 10 in
position 2 and candidate 20 in position 3, and voter 5 (key "k") who has a
stored ballot `[20]` for position 3 (vote row 100). -/
def sampleDb : DB where
  elections := [{ id := 1, name := "e", key := "ek" }]
  positions := [{ id := 2, name := "p1", rank := 0, election_id := 1 },
                { id := 3, name := "p2", rank := 1, election_id := 1 }]
  candidates := [{ id := 10, name := "A", position_id := 2 },
                 { id := 20, name := "B", position_id := 3 }]
  votes := [{ id := 100, rank := 1, candidate_id := 20, voter_id := 5 }]
  voters := [{ id := 5, key := "k", election_id := 1 }]
  nextId := 101

/-- `sampleDb` with a second voter 6 (key "k2") of the same election. -/
def sampleDb2 : DB :=
  { sampleDb with
    voters := sampleDb.voters ++ [{ id := 6, key := "k2", election_id := 1 }] }

/-- The empty committed database. -/
def emptyDb : DB where
  elections := []
  positions := []
  candidates := []
  votes := []
  voters := []
  nextId := 1

/-- A concrete `uuid4` supply. -/
def tokSupply : Nat → String := fun n => "tok" ++ toString n

/-- A concrete election-creation request: one position with one candidate and
one voter email. -/
def createReq : CreateRequestJson where
  name := "e"
  admin_email := "a@x"
  voter_emails := ["v@x"]
  positions := [{ name := "p", candidates := ["c"] }]

/-! ### Helper lemmas -/

theorem beqNat_comm (a b : Nat) : (a == b) = (b == a) := by
  simp [Nat.beq_eq]
  exact ⟨fun h => h.symm, fun h => h.symm⟩

theorem voteConflict_comm (a b : Vote) : voteConflict a b = voteConflict b a := by
  simp only [voteConflict, beqNat_comm a.voter_id b.voter_id,
    beqNat_comm a.candidate_id b.candidate_id, beqNat_comm a.rank b.rank]

theorem filter_filter_eq_nil {α : Type} (p q : α → Bool) (l : List α)
    (h : ∀ a, q a = true → p a = false) :
    (l.filter p).filter q = [] := by
  rw [List.filter_eq_nil_iff]
  intro a ha
  have hmem := List.mem_filter.mp ha
  intro hq
  rw [h a hq] at hmem
  exact Bool.false_ne_true hmem.2

theorem votesUniqueOk_cons {v : Vote} {l : List Vote} :
    votesUniqueOk (v :: l) = true ↔
      (∀ w ∈ l, voteConflict v w = false) ∧ votesUniqueOk l = true := by
  simp [votesUniqueOk, List.all_eq_true]

theorem votesUniqueOk_filter (p : Vote → Bool) :
    ∀ l : List Vote, votesUniqueOk l = true → votesUniqueOk (l.filter p) = true := by
  intro l
  induction l with
  | nil => intro h; exact h
  | cons a t ih =>
    intro h
    rw [votesUniqueOk_cons] at h
    rw [List.filter_cons]
    by_cases hp : p a = true
    · rw [if_pos hp, votesUniqueOk_cons]
      exact ⟨fun w hw => h.1 w (List.mem_of_mem_filter hw), ih h.2⟩
    · rw [if_neg hp]
      exact ih h.2

theorem votesUniqueOk_append :
    ∀ oldRows : List Vote, votesUniqueOk oldRows = true →
      ∀ newRows : List Vote, insertVotesOk oldRows newRows = true →
        votesUniqueOk (oldRows ++ newRows) = true := by
  intro oldRows
  induction oldRows with
  | nil =>
    intro _ newRows h2
    rw [List.nil_append]
    simp only [insertVotesOk, Bool.and_eq_true] at h2
    exact h2.1
  | cons a t ih =>
    intro h1 newRows h2
    simp only [insertVotesOk, Bool.and_eq_true, List.all_eq_true, Bool.not_eq_true'] at h2
    obtain ⟨hnew, hcross⟩ := h2
    rw [votesUniqueOk_cons] at h1
    rw [List.cons_append, votesUniqueOk_cons]
    constructor
    · intro w hw
      rcases List.mem_append.mp hw with hmem | hmem
      · exact h1.1 w hmem
      · rw [voteConflict_comm]
        exact hcross w hmem a (List.mem_cons_self a t)
    · apply ih h1.2
      simp only [insertVotesOk, Bool.and_eq_true, List.all_eq_true, Bool.not_eq_true']
      exact ⟨hnew, fun r hr w hw => hcross r hr w (List.mem_cons_of_mem a hw)⟩

theorem pairwise_of_votesUniqueOk :
    ∀ l : List Vote, votesUniqueOk l = true →
      l.Pairwise fun a b => ¬(a.rank = b.rank ∧ a.candidate_id = b.candidate_id) := by
  intro l
  induction l with
  | nil => intro _; exact List.Pairwise.nil
  | cons a t ih =>
    intro h
    rw [votesUniqueOk_cons] at h
    refine List.Pairwise.cons ?_ (ih h.2)
    intro w hw hcontra
    have hc := h.1 w hw
    simp [voteConflict, hcontra.1, hcontra.2] at hc

theorem buildVotes_map_candidate_id (vid : Nat) (cids : List Nat) :
    ∀ nid rank : Nat,
      (buildVotes vid nid rank cids).map (fun r => r.candidate_id) = cids := by
  induction cids with
  | nil => intro nid rank; rfl
  | cons c rest ih => intro nid rank; simp [buildVotes, ih]

theorem buildVotes_map_rank (vid : Nat) (cids : List Nat) :
    ∀ nid rank : Nat,
      (buildVotes vid nid rank cids).map (fun r => r.rank) =
        List.range' rank cids.length := by
  induction cids with
  | nil => intro nid rank; rfl
  | cons c rest ih =>
    intro nid rank
    rw [List.length_cons, List.range'_succ]
    simp [buildVotes, ih]

theorem buildVotes_mem (vid : Nat) (cids : List Nat) :
    ∀ (nid rank : Nat) (r : Vote), r ∈ buildVotes vid nid rank cids →
      r.voter_id = vid ∧ r.candidate_id ∈ cids := by
  induction cids with
  | nil => intro _ _ r h; cases h
  | cons c rest ih =>
    intro nid rank r h
    rcases List.mem_cons.mp h with h | h
    · subst h; exact ⟨rfl, by simp⟩
    · obtain ⟨h1, h2⟩ := ih (nid + 1) (rank + 1) r h
      exact ⟨h1, List.mem_cons_of_mem c h2⟩

theorem buildVotes_exists_row (vid : Nat) (cids : List Nat) :
    ∀ nid rank cid : Nat, cid ∈ cids →
      ∃ r ∈ buildVotes vid nid rank cids, r.candidate_id = cid := by
  induction cids with
  | nil => intro _ _ _ h; cases h
  | cons c rest ih =>
    intro nid rank cid h
    rcases List.mem_cons.mp h with h | h
    · exact ⟨_, List.mem_cons_self _ _, h.symm⟩
    · obtain ⟨r, hr, hc⟩ := ih (nid + 1) (rank + 1) cid h
      exact ⟨r, List.mem_cons_of_mem _ hr, hc⟩

/-! ### Theorems for the claims -/

/-- C7: for candidate set {1, 2} and the two ballots [1] and [2], the IRV
resolver's round 1 counts candidate 1 at 1 and candidate 2 at 1, eliminates
both candidates together (tied at the minimum), and returns `noWinner` as a
reported value — not an exception. -/
theorem resolve_two_ballot_tie_noWinner :
    resolve [1, 2] [[1], [2]] =
      { rounds := [{ counts := [(1, 1), (2, 1)], exhausted := 0, eliminated := [1, 2] }]
        outcome := .noWinner } := by
  decide

/-- C2 counterexample: voter 5 has a stored ballot for position 3; a
successful resubmission containing only a ballot for position 2 leaves the
voter with **no** stored ballot for position 3 — the other position's ballot
does not remain unchanged. -/
theorem resubmit_other_position_ballot_deleted :
    votesForPair sampleDb 5 3 =
        [{ id := 100, rank := 1, candidate_id := 20, voter_id := 5 }] ∧
      (vote_election sampleDb 1
          { key := "k", votes := [{ position_id := 2, candidate_ids := [10] }] }).result =
        .ok (resultsUrlFor 1) ∧
      votesForPair
          (vote_election sampleDb 1
            { key := "k", votes := [{ position_id := 2, candidate_ids := [10] }] }).db
          5 3 = [] := by
  refine ⟨by decide, ?_, by decide⟩
  rfl

/-- C3 counterexample: the empty candidate sequence is accepted (the request
succeeds) although no abstention configuration exists, and a duplicated
candidate id is not rejected by a `DuplicateCandidate` validation error but
only by the commit-time unique constraint (an `IntegrityError`, surfaced as a
500 server failure). -/
theorem empty_ballot_accepted_duplicate_hits_constraint :
    (vote_election sampleDb 1
        { key := "k", votes := [{ position_id := 2, candidate_ids := [] }] }).result =
      .ok (resultsUrlFor 1) ∧
    (vote_election sampleDb 1
        { key := "k", votes := [{ position_id := 2, candidate_ids := [10, 10] }] }).result =
      .error .integrityError ∧
    responseStatus .integrityError = 500 := by
  refine ⟨?_, ?_, by decide⟩ <;> rfl

/-- C4 counterexample: candidate 20 belongs to position 3, yet a ballot
targeting position 2 that lists candidate 20 is accepted and its vote row is
stored. -/
theorem foreign_candidate_ballot_stored :
    (vote_election sampleDb 1
        { key := "k", votes := [{ position_id := 2, candidate_ids := [20] }] }).result =
      .ok (resultsUrlFor 1) ∧
    (vote_election sampleDb 1
        { key := "k", votes := [{ position_id := 2, candidate_ids := [20] }] }).db.votes =
      [{ id := 101, rank := 1, candidate_id := 20, voter_id := 5 }] := by
  refine ⟨?_, by decide⟩
  rfl

/-- C5 counterexample: voter 5 has a stored ballot; a submission naming an
unknown position id fails, and the failed request's outcome is exactly the
deleted-but-not-reinserted state: the voter's prior votes are gone. -/
theorem failed_request_exposes_deleted_state :
    votesForPair sampleDb 5 3 =
        [{ id := 100, rank := 1, candidate_id := 20, voter_id := 5 }] ∧
      (vote_election sampleDb 1
          { key := "k", votes := [{ position_id := 99, candidate_ids := [10] }] }).result =
        .error .noResultFound ∧
      (vote_election sampleDb 1
          { key := "k", votes := [{ position_id := 99, candidate_ids := [10] }] }).db.votes =
        [] := by
  refine ⟨by decide, ?_, by decide⟩
  rfl

/-- C6 counterexample: after a successful `create_election`, the stored
election key is the raw issued token `tok0` (the very string embedded after
`#` in the mailed manage URL) and the stored voter key is the raw token
`tok1` from the mailed voting URL — not hashes. -/
theorem raw_token_stored_concrete :
    (create_election emptyDb tokSupply (fun _ => true) createReq).db.elections =
        [{ id := 1, name := "e", key := "tok0" }] ∧
      (create_election emptyDb tokSupply (fun _ => true) createReq).db.voters =
        [{ id := 4, key := "tok1", election_id := 1 }] ∧
      (create_election emptyDb tokSupply (fun _ => true) createReq).sent =
        [("a@x", manageUrlFor 1 ++ "#" ++ tokSupply 0),
          ("v@x", voteUrlFor 1 ++ "#" ++ tokSupply 1)] := by
  refine ⟨?_, ?_, ?_⟩ <;> rfl

/-- C8 counterexample: when the first `mail.send` raises, the request fails
with an unhandled exception (500) and no voter is persisted — although the
election itself was committed before the send. -/
theorem mail_failure_fails_request :
    (create_election emptyDb tokSupply (fun _ => false) createReq).result =
        .error .mailSendFailure ∧
      (create_election emptyDb tokSupply (fun _ => false) createReq).db.voters = [] ∧
      (create_election emptyDb tokSupply (fun _ => false) createReq).db.elections =
        [{ id := 1, name := "e", key := "tok0" }] ∧
      responseStatus .mailSendFailure = 500 := by
  refine ⟨?_, by decide, ?_, by decide⟩ <;> rfl

/-- C9 counterexample: a submission naming an unknown voter key raises
`NoResultFound`, for which no error handler is registered, so the response is
a 500 Internal Server Error — an unhandled server failure, not a client
error. -/
theorem unknown_voter_key_500 :
    (vote_election sampleDb 1 { key := "bad", votes := [] }).result =
        .error .noResultFound ∧
      responseStatus .noResultFound = 500 ∧ ¬(400 ≤ 500 ∧ 500 < 500) := by
  refine ⟨?_, by decide, by decide⟩
  rfl

/-- C1: if the request carries exactly one ballot, for a position `p` of the
election, all of whose candidate ids are candidates of `p`, and the request
succeeds, then the stored vote rows of that (voter, position) pair are
exactly one ballot whose candidate sequence equals the submitted content and
whose ranks are the gapless sequence 1..N: the rows created in the second
loop of `vote_election` are persisted and fully replace the prior ballot. -/
theorem resubmission_stores_exactly_latest_ballot
    (db : DB) (eid : Nat) (req : VoteRequestJson) (v : Voter) (b : BallotJson)
    (p : Position)
    (hv : (db.voters.filter fun w => w.key == req.key && w.election_id == eid) = [v])
    (hreq : req.votes = [b])
    (hbp : b.position_id = p.id)
    (hp : p ∈ db.positions) (hpe : p.election_id = eid)
    (hcands : ∀ cid ∈ b.candidate_ids,
      ∃ c ∈ db.candidates, c.id = cid ∧ c.position_id = p.id)
    (hok : ∃ s, (vote_election db eid req).result = Except.ok s) :
    ((votesForPair (vote_election db eid req).db v.id p.id).map fun r => r.candidate_id) =
        b.candidate_ids ∧
      ((votesForPair (vote_election db eid req).db v.id p.id).map fun r => r.rank) =
        List.range' 1 b.candidate_ids.length := by
  obtain ⟨s, hs⟩ := hok
  unfold vote_election at hs ⊢
  rw [hv, hreq] at hs ⊢
  simp only [queryOne] at hs ⊢
  unfold insertBallots at hs ⊢
  simp only [deleteOldVotes] at hs ⊢
  cases hq : queryOne (db.positions.filter fun q => q.id == b.position_id) with
  | error e =>
    rw [hq] at hs
    simp at hs
  | ok a =>
    rw [hq] at hs
    simp only [insertBallots, List.nil_append] at hs ⊢
    by_cases hins : insertVotesOk
        (db.votes.filter fun w => !(w.voter_id == v.id && voteInElection db eid w))
        (buildVotes v.id db.nextId 1 b.candidate_ids) = true
    · rw [if_pos hins] at hs ⊢
      simp only [votesForPair]
      have hkeep : ∀ a : Vote,
          (a.voter_id == v.id &&
            db.candidates.any fun c => c.id == a.candidate_id && c.position_id == p.id) = true →
          (!(a.voter_id == v.id && voteInElection db eid a)) = false := by
        intro a ha
        simp only [Bool.and_eq_true, List.any_eq_true, beq_iff_eq] at ha
        obtain ⟨hvid, c, hcmem, hcid, hcpos⟩ := ha
        simp only [Bool.not_eq_false', Bool.and_eq_true, beq_iff_eq]
        refine ⟨hvid, ?_⟩
        simp only [voteInElection, List.any_eq_true, Bool.and_eq_true, beq_iff_eq]
        exact ⟨c, hcmem, hcid, ⟨p, hp, hcpos.symm, hpe⟩⟩
      have hrows : ∀ r ∈ buildVotes v.id db.nextId 1 b.candidate_ids,
          (r.voter_id == v.id &&
            db.candidates.any fun c => c.id == r.candidate_id && c.position_id == p.id) = true := by
        intro r hr
        obtain ⟨h1, h2⟩ := buildVotes_mem v.id b.candidate_ids db.nextId 1 r hr
        obtain ⟨c, hcmem, hcid, hcpos⟩ := hcands r.candidate_id h2
        simp only [Bool.and_eq_true, List.any_eq_true, beq_iff_eq]
        exact ⟨h1, c, hcmem, hcid, hcpos⟩
      rw [List.filter_append,
        filter_filter_eq_nil _ _ db.votes hkeep,
        List.filter_eq_self.mpr (by simpa using hrows),
        List.nil_append]
      exact ⟨buildVotes_map_candidate_id v.id b.candidate_ids db.nextId 1,
        buildVotes_map_rank v.id b.candidate_ids db.nextId 1⟩
    · rw [if_neg hins] at hs
      simp at hs

/-- Witness for C1: voter 5 resubmits ballot `[10]` for position 2 of
election 1 over `sampleDb`; afterwards exactly the rows (rank 1, candidate
10) are stored for that pair. -/
theorem resubmission_stores_exactly_latest_ballot_witness :
    ((votesForPair
          (vote_election sampleDb 1
            { key := "k", votes := [{ position_id := 2, candidate_ids := [10] }] }).db
          5 2).map fun r => r.candidate_id) = [10] ∧
      ((votesForPair
          (vote_election sampleDb 1
            { key := "k", votes := [{ position_id := 2, candidate_ids := [10] }] }).db
          5 2).map fun r => r.rank) = List.range' 1 1 :=
  resubmission_stores_exactly_latest_ballot sampleDb 1
    { key := "k", votes := [{ position_id := 2, candidate_ids := [10] }] }
    { id := 5, key := "k", election_id := 1 }
    { position_id := 2, candidate_ids := [10] }
    { id := 2, name := "p1", rank := 0, election_id := 1 }
    (by rfl) rfl rfl (by decide) rfl (by decide) ⟨resultsUrlFor 1, rfl⟩

/-- C2 amended: a successful submission replaces the voter's ballots for the
**whole election**, not just the resubmitted position: every stored vote of
the voter inside the election afterwards is one of the rows built from the
request, so a position omitted from the request loses its ballot. -/
theorem resubmission_deletes_all_election_votes
    (db : DB) (eid : Nat) (req : VoteRequestJson) (v : Voter)
    (rows : List Vote) (nid : Nat)
    (hv : (db.voters.filter fun w => w.key == req.key && w.election_id == eid) = [v])
    (hins : insertBallots (deleteOldVotes db v.id eid) v.id req.votes []
        (deleteOldVotes db v.id eid).nextId = Except.ok (rows, nid))
    (hok : insertVotesOk (deleteOldVotes db v.id eid).votes rows = true) :
    ((vote_election db eid req).db.votes.filter fun r =>
        r.voter_id == v.id && voteInElection db eid r) =
      rows.filter fun r => r.voter_id == v.id && voteInElection db eid r := by
  unfold vote_election
  rw [hv]
  simp only [queryOne]
  rw [hins]
  simp only []
  rw [if_pos hok]
  simp only [deleteOldVotes] at *
  rw [List.filter_append,
    filter_filter_eq_nil _ _ db.votes (by intro a ha; simp [ha]),
    List.nil_append]

/-- Witness for C2 amended: over `sampleDb`, after voter 5 resubmits only a
position-2 ballot, their stored votes inside election 1 are exactly the one
row built from that request. -/
theorem resubmission_deletes_all_election_votes_witness :
    ((vote_election sampleDb 1
          { key := "k", votes := [{ position_id := 2, candidate_ids := [10] }] }).db.votes.filter
        fun r => r.voter_id == (5 : Nat) && voteInElection sampleDb 1 r) =
      ([{ id := 101, rank := 1, candidate_id := 10, voter_id := 5 }] :
          List Vote).filter
        fun r => r.voter_id == (5 : Nat) && voteInElection sampleDb 1 r :=
  resubmission_deletes_all_election_votes sampleDb 1
    { key := "k", votes := [{ position_id := 2, candidate_ids := [10] }] }
    { id := 5, key := "k", election_id := 1 }
    [{ id := 101, rank := 1, candidate_id := 10, voter_id := 5 }] 102
    (by rfl) (by rfl) (by rfl)

/-- C3 amended: ballot intake performs no shape validation.  Whenever the
voter and the ballot's position id resolve and the commit hits no declared
unique-constraint conflict, the submission is accepted — with **no**
requirement that the candidate ids be distinct, non-empty, or candidates of
the position. -/
theorem intake_accepts_without_validation
    (db : DB) (eid : Nat) (req : VoteRequestJson) (v : Voter) (b : BallotJson)
    (p : Position)
    (hv : (db.voters.filter fun w => w.key == req.key && w.election_id == eid) = [v])
    (hreq : req.votes = [b])
    (hpfilter : (db.positions.filter fun q => q.id == b.position_id) = [p])
    (hu : insertVotesOk (deleteOldVotes db v.id eid).votes
        (buildVotes v.id db.nextId 1 b.candidate_ids) = true) :
    (vote_election db eid req).result = Except.ok (resultsUrlFor eid) := by
  unfold vote_election
  rw [hv, hreq]
  simp only [queryOne, deleteOldVotes] at hu ⊢
  simp only [insertBallots]
  rw [hpfilter]
  simp only [queryOne, insertBallots, List.nil_append]
  rw [if_pos hu]

/-- Witness for C3 amended: the empty candidate sequence is accepted. -/
theorem intake_accepts_without_validation_witness :
    (vote_election sampleDb 1
        { key := "k", votes := [{ position_id := 2, candidate_ids := [] }] }).result =
      Except.ok (resultsUrlFor 1) :=
  intake_accepts_without_validation sampleDb 1
    { key := "k", votes := [{ position_id := 2, candidate_ids := [] }] }
    { id := 5, key := "k", election_id := 1 }
    { position_id := 2, candidate_ids := [] }
    { id := 2, name := "p1", rank := 0, election_id := 1 }
    (by rfl) rfl (by rfl) (by rfl)

/-- C4 amended: no candidate-membership check exists: a ballot listing a
candidate id that belongs to no candidate of the target position is still
accepted (provided the position id resolves and the commit hits no unique
constraint), and a vote row with that candidate id is stored. -/
theorem no_candidate_membership_check
    (db : DB) (eid : Nat) (req : VoteRequestJson) (v : Voter) (b : BallotJson)
    (p : Position) (cid : Nat)
    (hv : (db.voters.filter fun w => w.key == req.key && w.election_id == eid) = [v])
    (hreq : req.votes = [b])
    (hpfilter : (db.positions.filter fun q => q.id == b.position_id) = [p])
    (hu : insertVotesOk (deleteOldVotes db v.id eid).votes
        (buildVotes v.id db.nextId 1 b.candidate_ids) = true)
    (hmem : cid ∈ b.candidate_ids)
    (hforeign : ∀ c ∈ db.candidates, ¬(c.id = cid ∧ c.position_id = b.position_id)) :
    (vote_election db eid req).result = Except.ok (resultsUrlFor eid) ∧
      ∃ r ∈ (vote_election db eid req).db.votes, r.candidate_id = cid := by
  unfold vote_election
  rw [hv, hreq]
  simp only [queryOne, deleteOldVotes] at hu ⊢
  simp only [insertBallots]
  rw [hpfilter]
  simp only [queryOne, insertBallots, List.nil_append]
  rw [if_pos hu]
  refine ⟨rfl, ?_⟩
  obtain ⟨r, hr, hc⟩ := buildVotes_exists_row v.id b.candidate_ids db.nextId 1 cid hmem
  exact ⟨r, List.mem_append_right _ hr, hc⟩

/-- Witness for C4 amended: candidate 20 is no candidate of position 2, yet
the ballot `[20]` for position 2 is accepted and stored. -/
theorem no_candidate_membership_check_witness :
    (vote_election sampleDb 1
          { key := "k", votes := [{ position_id := 2, candidate_ids := [20] }] }).result =
        Except.ok (resultsUrlFor 1) ∧
      ∃ r ∈ (vote_election sampleDb 1
          { key := "k", votes := [{ position_id := 2, candidate_ids := [20] }] }).db.votes,
        r.candidate_id = 20 :=
  no_candidate_membership_check sampleDb 1
    { key := "k", votes := [{ position_id := 2, candidate_ids := [20] }] }
    { id := 5, key := "k", election_id := 1 }
    { position_id := 2, candidate_ids := [20] }
    { id := 2, name := "p1", rank := 0, election_id := 1 } 20
    (by rfl) rfl (by rfl) (by rfl) (by decide) (by decide)

/-- C5 amended: the deletion of the voter's prior votes is committed (line
200) before the ballots are processed, so a submission that fails during
ballot processing leaves behind exactly the deleted-but-not-reinserted
state: the voter's prior ballots for the election are lost, not preserved. -/
theorem failure_after_delete_commit_loses_ballots
    (db : DB) (eid : Nat) (req : VoteRequestJson) (v : Voter) (e : AppException)
    (hv : (db.voters.filter fun w => w.key == req.key && w.election_id == eid) = [v])
    (hfail : insertBallots (deleteOldVotes db v.id eid) v.id req.votes []
        (deleteOldVotes db v.id eid).nextId = Except.error e) :
    (vote_election db eid req).db = deleteOldVotes db v.id eid ∧
      (vote_election db eid req).result = Except.error e := by
  unfold vote_election
  rw [hv]
  simp only [queryOne]
  rw [hfail]
  exact ⟨rfl, rfl⟩

/-- Witness for C5 amended: the unknown-position request over `sampleDb`
fails and leaves exactly the post-deletion state. -/
theorem failure_after_delete_commit_loses_ballots_witness :
    (vote_election sampleDb 1
          { key := "k", votes := [{ position_id := 99, candidate_ids := [10] }] }).db =
        deleteOldVotes sampleDb 5 1 ∧
      (vote_election sampleDb 1
          { key := "k", votes := [{ position_id := 99, candidate_ids := [10] }] }).result =
        Except.error AppException.noResultFound :=
  failure_after_delete_commit_loses_ballots sampleDb 1
    { key := "k", votes := [{ position_id := 99, candidate_ids := [10] }] }
    { id := 5, key := "k", election_id := 1 } AppException.noResultFound
    (by rfl) (by rfl)

/-- C6 amended: the raw tokens are stored verbatim, never hashed: after any
`create_election` whose sends all succeed, the stored election row's `key`
column holds the raw issued token `uuid 0` — the same string embedded after
`#` in the manage URL mailed to the admin. -/
theorem raw_tokens_stored_verbatim
    (db : DB) (uuid : Nat → String) (req : CreateRequestJson) :
    (create_election db uuid (fun _ => true) req).db.elections =
        db.elections ++ [{ id := db.nextId, name := req.name, key := uuid 0 }] ∧
      (create_election db uuid (fun _ => true) req).sent.head? =
        some (req.admin_email, manageUrlFor db.nextId ++ "#" ++ uuid 0) := by
  simp only [create_election]
  rcases hvl : voterLoop db.nextId uuid (fun _ => true) req.voter_emails
      (buildPositions db.nextId (db.nextId + 1) 0 req.positions).2.2 1 with
    ⟨vs, ms, nid2, ok⟩
  cases ok <;> simp

/-- C8 amended: a failure of the email collaborator is **fatal to the
request**: when the first `mail.send` raises, the request fails with an
unhandled 500, no voter row is persisted — while the election row (with its
positions and candidates, committed before the send) is still created. -/
theorem mail_failure_aborts_after_election_commit
    (db : DB) (uuid : Nat → String) (sendOk : Nat → Bool) (req : CreateRequestJson)
    (h : sendOk 0 = false) :
    (create_election db uuid sendOk req).result = Except.error AppException.mailSendFailure ∧
      (create_election db uuid sendOk req).db.voters = db.voters ∧
      (create_election db uuid sendOk req).db.elections =
        db.elections ++ [{ id := db.nextId, name := req.name, key := uuid 0 }] ∧
      responseStatus AppException.mailSendFailure = 500 := by
  simp [create_election, h, responseStatus]

/-- Witness for C8 amended: the concrete failing mailer over `emptyDb`. -/
theorem mail_failure_aborts_after_election_commit_witness :
    (create_election emptyDb tokSupply (fun _ => false) createReq).result =
        Except.error AppException.mailSendFailure ∧
      (create_election emptyDb tokSupply (fun _ => false) createReq).db.voters =
        emptyDb.voters ∧
      (create_election emptyDb tokSupply (fun _ => false) createReq).db.elections =
        emptyDb.elections ++
          [{ id := emptyDb.nextId, name := createReq.name, key := tokSupply 0 }] ∧
      responseStatus AppException.mailSendFailure = 500 :=
  mail_failure_aborts_after_election_commit emptyDb tokSupply (fun _ => false) createReq rfl

/-- C9 amended: a submission naming an unknown voter key, or an unknown
position id in its first ballot, raises `NoResultFound`; no handler is
registered for it (only `InvalidUsage` has one, and it is never raised), so
the response is a 500 Internal Server Error — an unhandled server failure,
not a client error. -/
theorem unknown_voter_or_position_unhandled_500 :
    (∀ (db : DB) (eid : Nat) (req : VoteRequestJson),
        (db.voters.filter fun w => w.key == req.key && w.election_id == eid) = [] →
          (vote_election db eid req).result = Except.error AppException.noResultFound ∧
            responseStatus AppException.noResultFound = 500) ∧
      ∀ (db : DB) (eid : Nat) (req : VoteRequestJson) (v : Voter) (b : BallotJson)
        (rest : List BallotJson),
        (db.voters.filter fun w => w.key == req.key && w.election_id == eid) = [v] →
          req.votes = b :: rest →
            (db.positions.filter fun q => q.id == b.position_id) = [] →
              (vote_election db eid req).result = Except.error AppException.noResultFound ∧
                responseStatus AppException.noResultFound = 500 := by
  constructor
  · intro db eid req hv
    unfold vote_election
    rw [hv]
    exact ⟨rfl, rfl⟩
  · intro db eid req v b rest hv hreq hp
    unfold vote_election
    rw [hv, hreq]
    simp only [queryOne, insertBallots, deleteOldVotes]
    rw [hp]
    exact ⟨rfl, rfl⟩

/-- Witness for C9 amended: both cases at concrete inputs — unknown key over
`sampleDb`, unknown position id 4 over `sampleDb2`. -/
theorem unknown_voter_or_position_unhandled_500_witness :
    ((vote_election sampleDb 1 { key := "bad", votes := [] }).result =
          Except.error AppException.noResultFound ∧
        responseStatus AppException.noResultFound = 500) ∧
      (vote_election sampleDb2 1
            { key := "k2", votes := [{ position_id := 4, candidate_ids := [] }] }).result =
          Except.error AppException.noResultFound ∧
        responseStatus AppException.noResultFound = 500 :=
  ⟨unknown_voter_or_position_unhandled_500.1 sampleDb 1
      { key := "bad", votes := [] } (by rfl),
    unknown_voter_or_position_unhandled_500.2 sampleDb2 1
      { key := "k2", votes := [{ position_id := 4, candidate_ids := [] }] }
      { id := 6, key := "k2", election_id := 1 }
      { position_id := 4, candidate_ids := [] } [] (by rfl) rfl (by rfl)⟩

/-- C10: the `votes` table's declared `UniqueConstraint('rank',
'candidate_id')` is global across voters: starting from any database whose
vote rows satisfy the declared unique constraints, `vote_election` always
leaves a state with no two vote rows sharing the same rank and candidate;
and concretely, voter 6's otherwise well-formed ballot `[20]` for position 3
is rejected with an `IntegrityError` because voter 5 already ranks candidate
20 at rank 1. -/
theorem vote_rank_candidate_uniqueness :
    (∀ (db : DB) (eid : Nat) (req : VoteRequestJson),
        votesUniqueOk db.votes = true →
          (vote_election db eid req).db.votes.Pairwise fun a b =>
            ¬(a.rank = b.rank ∧ a.candidate_id = b.candidate_id)) ∧
      (vote_election sampleDb2 1
          { key := "k2", votes := [{ position_id := 3, candidate_ids := [20] }] }).result =
        Except.error AppException.integrityError := by
  constructor
  · intro db eid req h
    apply pairwise_of_votesUniqueOk
    unfold vote_election
    split
    · exact h
    · simp only [deleteOldVotes]
      split
      · exact votesUniqueOk_filter _ db.votes h
      · split
        · next hcond =>
            exact votesUniqueOk_append _ (votesUniqueOk_filter _ db.votes h) _ hcond
        · exact votesUniqueOk_filter _ db.votes h
  · rfl

/-- Witness for C10: the invariant instantiated over `sampleDb`. -/
theorem vote_rank_candidate_uniqueness_witness :
    (vote_election sampleDb 1
        { key := "k", votes := [{ position_id := 3, candidate_ids := [20] }] }).db.votes.Pairwise
      fun a b => ¬(a.rank = b.rank ∧ a.candidate_id = b.candidate_id) :=
  vote_rank_candidate_uniqueness.1 sampleDb 1
    { key := "k", votes := [{ position_id := 3, candidate_ids := [20] }] } (by rfl)

end Irv
